import Mathlib

/-!
Shallow embedding of src/backend_api/main.py, a Flask service that forwards
sentiment-analysis requests to an external NLP API and persists labeled
results in an external document store.

Modelling choices:
- A Python float score is modelled as Option Rat: some q is an ordinary
  numeric value, none is NaN (incomparable: every comparison against it is
  false, matching IEEE semantics of Python comparisons).
- Raised exceptions are modelled with Except PyError: an error value
  propagates unchanged to the caller, as an uncaught Python exception does.
- The external language service and the datastore put outcome are parameters
  of the handlers, since both are outbound network calls.
- The datastore is a record of a list of entities plus a counter from which
  the store-generated entity ids are drawn; put appends the entity and
  advances the counter, modelling automatic id generation.
- Python dicts keyed by strings are modelled as association lists; writing a
  key that is already present overwrites in place, otherwise the entry is
  appended, matching dict insertion order semantics.
-/

/-- A Python float: some q is a numeric value, none is NaN. -/
abbrev FloatV := Option ℚ

/-- Python comparison a > b on floats: false whenever either side is NaN. -/
def pyGt (a b : FloatV) : Bool :=
  match a, b with
  | some x, some y => decide (y < x)
  | _, _ => false

/-- Python comparison a < b on floats: false whenever either side is NaN. -/
def pyLt (a b : FloatV) : Bool :=
  match a, b with
  | some x, some y => decide (x < y)
  | _, _ => false

/-- Python comparison a == b on floats: false whenever either side is NaN. -/
def pyEq (a b : FloatV) : Bool :=
  match a, b with
  | some x, some y => decide (x = y)
  | _, _ => false

/-- Python str() of an optional string: str(None) is the text "None". -/
def pyStrOfOptString : Option String → String
  | some s => s
  | none => "None"

/-- language.Document.Type (main.py line 156): PLAIN_TEXT or HTML. -/
inductive DocumentType
  | PLAIN_TEXT
  | HTML
deriving DecidableEq

/-- language.EncodingType (main.py line 165): NONE, UTF8, UTF16 or UTF32. -/
inductive EncodingType
  | NONE
  | UTF8
  | UTF16
  | UTF32
deriving DecidableEq

/-- The document argument of analyze_sentiment: either inline content or a
Cloud Storage URI, plus type and an optional language code (main.py lines
162 and 201). A field that the caller does not set is none. -/
structure Document where
  content : Option String
  gcs_content_uri : Option String
  type_ : DocumentType
  language : Option String
deriving DecidableEq

/-- A score and magnitude pair as returned by the external service, for the
document as a whole or for one sentence. -/
structure SentimentValues where
  score : FloatV
  magnitude : FloatV
deriving DecidableEq

/-- One element of response.sentences: the sentence text and its sentiment. -/
structure Sentence where
  content : String
  sentiment : SentimentValues
deriving DecidableEq

/-- The response of the external analyze_sentiment call: document-level
sentiment plus per-sentence sentiments. -/
structure AnalyzeSentimentResponse where
  document_sentiment : SentimentValues
  sentences : List Sentence
deriving DecidableEq

/-- A raised Python exception, as classified by the spec error taxonomy. -/
inductive PyError
  | externalServiceError (msg : String)
  | storeUnavailableError (msg : String)
deriving DecidableEq

-- Equality of raised-or-returned outcomes is decidable, so concrete runs
-- can be compared by evaluation.
deriving instance DecidableEq for Except

/-- The external language service: takes the document and an optional
encoding type (analyze_sentiment_using_uri passes UTF8, analyze_text_sentiment
passes none) and either returns a response or raises. -/
abbrev LanguageService :=
  Document → Option EncodingType → Except PyError AnalyzeSentimentResponse

/-- The dict built by analyze_sentiment_using_uri (main.py lines 169-173):
text, score and magnitude. -/
structure AnalyzeUriResult where
  text : Option String
  score : FloatV
  magnitude : FloatV
deriving DecidableEq

/-- The default value of the language_code parameter in the Python signature
of analyze_sentiment_using_uri (main.py line 142). In Python it applies only
when the caller omits the argument; a caller that passes None explicitly gets
None, not this default. -/
def analyzeUriLanguageCodeDefault : Option String := some "en"

/-- analyze_sentiment_using_uri (main.py lines 142-175): builds a document
from the Cloud Storage URI, the PLAIN_TEXT type and the language_code
argument, calls the external service with UTF8 encoding, and returns the
text/score/magnitude dict built verbatim from the document-level sentiment
of the response. An error of the external call propagates. -/
def analyze_sentiment_using_uri (client : LanguageService)
    (gcs_content_uri : Option String) (language_code : Option String) :
    Except PyError AnalyzeUriResult :=
  let type_ := DocumentType.PLAIN_TEXT
  let document : Document :=
    { content := none, gcs_content_uri := gcs_content_uri,
      type_ := type_, language := language_code }
  let encoding_type := EncodingType.UTF8
  match client document (some encoding_type) with
  | Except.error e => Except.error e
  | Except.ok response =>
      Except.ok
        { text := gcs_content_uri,
          score := response.document_sentiment.score,
          magnitude := response.document_sentiment.magnitude }

/-- One element of the list returned by analyze_text_sentiment (main.py
lines 218-224): the sentence text, its sentiment score and its magnitude. -/
structure SentenceSentimentItem where
  text : String
  sentiment_score : FloatV
  sentiment_magnitude : FloatV
deriving DecidableEq

/-- analyze_text_sentiment (main.py lines 194-226): builds an inline-content
document (no URI, no language, no encoding type), calls the external service,
and returns the list of per-sentence items, one per element of
response.sentences. The document-level dict with percent-formatted score and
magnitude (lines 207-215) is only printed, never returned, so it is not part
of the value semantics modelled here. -/
def analyze_text_sentiment (client : LanguageService) (text : String) :
    Except PyError (List SentenceSentimentItem) :=
  let document : Document :=
    { content := some text, gcs_content_uri := none,
      type_ := DocumentType.PLAIN_TEXT, language := none }
  match client document none with
  | Except.error e => Except.error e
  | Except.ok response =>
      Except.ok (response.sentences.map (fun sentence =>
        { text := sentence.content,
          sentiment_score := sentence.sentiment.score,
          sentiment_magnitude := sentence.sentiment.magnitude }))

/-- The label assignment of the POST handler (main.py lines 92-98): an
initial default of "unknown" followed by three independent if statements,
each overwriting the variable when its comparison holds. -/
def classifySentiment (sentiment : FloatV) : String :=
  let overall_sentiment := "unknown"
  let overall_sentiment := if pyGt sentiment (some 0) then "positive" else overall_sentiment
  let overall_sentiment := if pyLt sentiment (some 0) then "negative" else overall_sentiment
  let overall_sentiment := if pyEq sentiment (some 0) then "neutral" else overall_sentiment
  overall_sentiment

/-- A persisted Articles entity: the store-generated id and the three fields
the POST handler sets (main.py lines 112-115). The timestamp is an abstract
server-clock reading, modelled as a natural number. -/
structure Entity where
  id : Nat
  file_uri : Option String
  timestamp : Nat
  sentiment : String
deriving DecidableEq

/-- The external document store: the already persisted entities plus the
counter from which the next store-generated id is drawn. -/
structure Datastore where
  nextId : Nat
  entities : List Entity
deriving DecidableEq

/-- Writing key k into a Python dict modelled as an association list:
overwrite in place when k is present, append otherwise. -/
def pyDictSet {α : Type} (d : List (String × α)) (k : String) (v : α) :
    List (String × α) :=
  if d.any (fun p => p.1 == k) then
    d.map (fun p => if p.1 == k then (k, v) else p)
  else
    d ++ [(k, v)]

/-- The value of one entry of the GET response (main.py lines 69-73): all
three fields coerced with str(). -/
structure TextGetEntry where
  file_uri : String
  timestamp : String
  sentiment : String
deriving DecidableEq

/-- The value of the single entry of the POST response (main.py lines
121-125): file_uri is returned as parsed (not coerced), the timestamp is
coerced with str(), the sentiment is the assigned label. -/
structure TextPostEntry where
  file_uri : Option String
  timestamp : String
  sentiment : String
deriving DecidableEq

/-- The value of one GET entry built from an entity (main.py lines 69-73):
all three fields coerced with str(). -/
def mkGetEntry (text_entity : Entity) : TextGetEntry :=
  { file_uri := pyStrOfOptString text_entity.file_uri,
    timestamp := toString text_entity.timestamp,
    sentiment := text_entity.sentiment }

/-- Text.get (main.py lines 55-75): fetch every Articles entity and build a
dict keyed by str(id) whose values hold the three fields coerced to strings.
The handler issues no put, so the store it returns is the one it received. -/
def Text.get (datastore_client : Datastore) :
    Datastore × List (String × TextGetEntry) :=
  let text_entities := datastore_client.entities
  let result := text_entities.foldl
    (fun result text_entity =>
      pyDictSet result (toString text_entity.id) (mkGetEntry text_entity))
    []
  (datastore_client, result)

/-- Text.post (main.py lines 78-126): parse the two form fields, call
analyze_sentiment_using_uri with them and take the score, assign the label,
build the entity, put it, and return a one-entry dict keyed by the
store-generated id. put_result models the outcome of the datastore put: on a
raised store error the entity is not persisted and the error propagates.
Every raised error leaves the store unchanged. -/
def Text.post (client : LanguageService) (put_result : Except PyError Unit)
    (datastore_client : Datastore)
    (file_uri language_code : Option String) (now : Nat) :
    Datastore × Except PyError (List (String × TextPostEntry)) :=
  match (analyze_sentiment_using_uri client file_uri language_code).map
      AnalyzeUriResult.score with
  | Except.error e => (datastore_client, Except.error e)
  | Except.ok sentiment =>
    let overall_sentiment := classifySentiment sentiment
    let current_datetime := now
    let entity : Entity :=
      { id := datastore_client.nextId, file_uri := file_uri,
        timestamp := current_datetime, sentiment := overall_sentiment }
    match put_result with
    | Except.error e => (datastore_client, Except.error e)
    | Except.ok _ =>
        let datastore2 : Datastore :=
          { nextId := datastore_client.nextId + 1,
            entities := datastore_client.entities ++ [entity] }
        let result := pyDictSet []
          (toString entity.id)
          { file_uri := file_uri, timestamp := toString current_datetime,
            sentiment := overall_sentiment }
        (datastore2, Except.ok result)

/-- The message carried by a raised error. -/
def PyError.msg : PyError → String
  | PyError.externalServiceError m => m
  | PyError.storeUnavailableError m => m

/-- server_error (main.py lines 129-140): the 500 handler formats the
exception into a generic message and returns status 500. -/
def server_error (e : PyError) : String × Nat :=
  ("An internal error occurred: <pre>" ++ e.msg ++ "</pre> See logs for full stacktrace.",
   500)

/-- Modelled from the spec: the hosting framework (Flask, outside this
repository) converts a handler that raises into a generic 500 response and a
handler that returns into a 200 response. -/
def responseStatus {α : Type} : Except PyError α → Nat
  | Except.error _ => 500
  | Except.ok _ => 200

/-! Concrete fixtures used to instantiate the theorems below. -/

/-- An external service that always answers with the given response. -/
def constOkClient (resp : AnalyzeSentimentResponse) : LanguageService :=
  fun _ _ => Except.ok resp

/-- An external service that always raises the given error. -/
def constErrClient (e : PyError) : LanguageService :=
  fun _ _ => Except.error e

/-- A response whose document-level sentiment has the given score, zero
magnitude, and no sentence data. -/
def sampleResponse (s : FloatV) : AnalyzeSentimentResponse :=
  { document_sentiment := { score := s, magnitude := some 0 },
    sentences := [] }

/-- An external service whose answer depends on the language of the request
document: a positive document score when the language is "en", a negative
one otherwise. Posting through it reveals which language code the handler
actually sends. -/
def langProbeClient : LanguageService :=
  fun document _ =>
    if document.language = some "en" then Except.ok (sampleResponse (some 1))
    else Except.ok (sampleResponse (some (-1)))

/-- A response carrying two sentences with distinct sentiments, both
different from the document-level sentiment. -/
def twoSentenceResponse : AnalyzeSentimentResponse :=
  { document_sentiment := { score := some 1, magnitude := some 1 },
    sentences :=
      [ { content := "First.", sentiment := { score := some 1, magnitude := some 0 } },
        { content := "Second.", sentiment := { score := some (-1), magnitude := some 1 } } ] }

/-- An external service that always answers with the two-sentence response. -/
def twoSentenceClient : LanguageService :=
  fun _ _ => Except.ok twoSentenceResponse

/-- The store before any POST. -/
def emptyStore : Datastore := { nextId := 0, entities := [] }

/-- A store holding two entities with distinct ids. -/
def sampleStore : Datastore :=
  { nextId := 2,
    entities :=
      [ { id := 0, file_uri := some "gs://bucket/a.txt", timestamp := 5, sentiment := "positive" },
        { id := 1, file_uri := none, timestamp := 6, sentiment := "neutral" } ] }

/-! Helper lemmas. -/

theorem classifySentiment_none : classifySentiment none = "unknown" := rfl

theorem classifySentiment_pos {q : ℚ} (h : 0 < q) :
    classifySentiment (some q) = "positive" := by
  have h1 : ¬ q < 0 := not_lt.mpr h.le
  have h2 : ¬ q = 0 := ne_of_gt h
  simp [classifySentiment, pyGt, pyLt, pyEq, h, h1, h2]

theorem classifySentiment_neg {q : ℚ} (h : q < 0) :
    classifySentiment (some q) = "negative" := by
  have h1 : ¬ 0 < q := not_lt.mpr h.le
  have h2 : ¬ q = 0 := ne_of_lt h
  simp [classifySentiment, pyGt, pyLt, pyEq, h, h1, h2]

theorem classifySentiment_zero : classifySentiment (some 0) = "neutral" := by
  simp [classifySentiment, pyGt, pyLt, pyEq]

theorem classifySentiment_some_mem (q : ℚ) :
    classifySentiment (some q) = "positive" ∨
    classifySentiment (some q) = "negative" ∨
    classifySentiment (some q) = "neutral" := by
  rcases lt_trichotomy q 0 with h | h | h
  · exact Or.inr (Or.inl (classifySentiment_neg h))
  · subst h
    exact Or.inr (Or.inr classifySentiment_zero)
  · exact Or.inl (classifySentiment_pos h)

theorem classifySentiment_unknown_iff (s : FloatV) :
    classifySentiment s = "unknown" ↔
      (pyGt s (some 0) = false ∧ pyLt s (some 0) = false ∧ pyEq s (some 0) = false) := by
  cases s with
  | none => simp [classifySentiment_none, pyGt, pyLt, pyEq]
  | some q =>
    constructor
    · intro h
      rcases classifySentiment_some_mem q with h1 | h1 | h1 <;>
        rw [h1] at h <;> exact absurd h (by decide)
    · rintro ⟨h1, h2, h3⟩
      exfalso
      simp [pyGt] at h1
      simp [pyLt] at h2
      simp [pyEq] at h3
      rcases lt_trichotomy q 0 with h | h | h
      · linarith
      · exact h3 h
      · linarith

theorem analyze_uri_ok (client : LanguageService) (fu lc : Option String)
    (resp : AnalyzeSentimentResponse)
    (hC : client { content := none, gcs_content_uri := fu,
                   type_ := DocumentType.PLAIN_TEXT, language := lc }
            (some EncodingType.UTF8) = Except.ok resp) :
    analyze_sentiment_using_uri client fu lc =
      Except.ok { text := fu, score := resp.document_sentiment.score,
                  magnitude := resp.document_sentiment.magnitude } := by
  simp [analyze_sentiment_using_uri, hC]

theorem analyze_uri_error (client : LanguageService) (fu lc : Option String)
    (e : PyError)
    (hC : client { content := none, gcs_content_uri := fu,
                   type_ := DocumentType.PLAIN_TEXT, language := lc }
            (some EncodingType.UTF8) = Except.error e) :
    analyze_sentiment_using_uri client fu lc = Except.error e := by
  simp [analyze_sentiment_using_uri, hC]

theorem post_ok_shape (client : LanguageService) (store : Datastore)
    (fu lc : Option String) (now : Nat) (ares : AnalyzeUriResult)
    (hA : analyze_sentiment_using_uri client fu lc = Except.ok ares) :
    Text.post client (Except.ok ()) store fu lc now =
      ({ nextId := store.nextId + 1,
         entities := store.entities ++
           [{ id := store.nextId, file_uri := fu, timestamp := now,
              sentiment := classifySentiment ares.score }] },
       Except.ok [(toString store.nextId,
         { file_uri := fu, timestamp := toString now,
           sentiment := classifySentiment ares.score })]) := by
  simp [Text.post, hA, pyDictSet, Except.map]

theorem post_analyze_error_shape (client : LanguageService)
    (pr : Except PyError Unit) (store : Datastore)
    (fu lc : Option String) (now : Nat) (e : PyError)
    (hA : analyze_sentiment_using_uri client fu lc = Except.error e) :
    Text.post client pr store fu lc now = (store, Except.error e) := by
  simp [Text.post, hA, Except.map]

theorem post_put_error_shape (client : LanguageService) (store : Datastore)
    (fu lc : Option String) (now : Nat) (e : PyError) (ares : AnalyzeUriResult)
    (hA : analyze_sentiment_using_uri client fu lc = Except.ok ares) :
    Text.post client (Except.error e) store fu lc now = (store, Except.error e) := by
  simp [Text.post, hA, Except.map]

/-! Claim theorems. -/

/-- C1: The classification performed inside the POST handler maps every score
that compares greater than zero to "positive", every score that compares less
than zero to "negative", and every score that compares equal to zero to
"neutral". -/
theorem classifySentiment_spec (s : FloatV) :
    (pyGt s (some 0) = true → classifySentiment s = "positive") ∧
    (pyLt s (some 0) = true → classifySentiment s = "negative") ∧
    (pyEq s (some 0) = true → classifySentiment s = "neutral") := by
  refine ⟨?_, ?_, ?_⟩ <;> intro h
  · cases s with
    | none => exact absurd h (by decide)
    | some q => exact classifySentiment_pos (by simpa [pyGt] using h)
  · cases s with
    | none => exact absurd h (by decide)
    | some q => exact classifySentiment_neg (by simpa [pyLt] using h)
  · cases s with
    | none => exact absurd h (by decide)
    | some q =>
      have hq : q = 0 := by simpa [pyEq] using h
      subst hq
      exact classifySentiment_zero

theorem classifySentiment_spec_witness :
    classifySentiment (some 1) = "positive" ∧
    classifySentiment (some (-1)) = "negative" ∧
    classifySentiment (some 0) = "neutral" :=
  ⟨(classifySentiment_spec (some 1)).1 (by decide),
   (classifySentiment_spec (some (-1))).2.1 (by decide),
   (classifySentiment_spec (some 0)).2.2 (by decide)⟩

/-- C2: On every POST whose analysis call succeeds and whose put succeeds,
the initial "unknown" label is overwritten before persistence: the persisted
and the returned label both equal the classification of the adapter score;
that label is "unknown" exactly when the score compares neither greater than,
less than, nor equal to zero (an incomparable score, i.e. NaN), and whenever
one of those comparisons holds it is "positive", "negative" or "neutral". -/
theorem post_label_overwrite_spec (client : LanguageService) (store : Datastore)
    (fu lc : Option String) (now : Nat) (ares : AnalyzeUriResult)
    (hA : analyze_sentiment_using_uri client fu lc = Except.ok ares) :
    (Text.post client (Except.ok ()) store fu lc now).1.entities
      = store.entities ++
        [{ id := store.nextId, file_uri := fu, timestamp := now,
           sentiment := classifySentiment ares.score }] ∧
    (Text.post client (Except.ok ()) store fu lc now).2
      = Except.ok [(toString store.nextId,
        { file_uri := fu, timestamp := toString now,
          sentiment := classifySentiment ares.score })] ∧
    (classifySentiment ares.score = "unknown" ↔
      (pyGt ares.score (some 0) = false ∧ pyLt ares.score (some 0) = false ∧
       pyEq ares.score (some 0) = false)) ∧
    ((pyGt ares.score (some 0) = true ∨ pyLt ares.score (some 0) = true ∨
      pyEq ares.score (some 0) = true) →
      classifySentiment ares.score = "positive" ∨
      classifySentiment ares.score = "negative" ∨
      classifySentiment ares.score = "neutral") := by
  refine ⟨?_, ?_, classifySentiment_unknown_iff ares.score, ?_⟩
  · rw [post_ok_shape client store fu lc now ares hA]
  · rw [post_ok_shape client store fu lc now ares hA]
  · intro h
    cases hs : ares.score with
    | none => rw [hs] at h; simp [pyGt, pyLt, pyEq] at h
    | some q => exact classifySentiment_some_mem q

theorem post_label_overwrite_spec_witness :
    analyze_sentiment_using_uri (constOkClient (sampleResponse (some (-1))))
        (some "gs://bucket/a.txt") (some "en")
      = Except.ok { text := some "gs://bucket/a.txt", score := some (-1),
                    magnitude := some 0 } ∧
    (Text.post (constOkClient (sampleResponse (some (-1)))) (Except.ok ()) emptyStore
        (some "gs://bucket/a.txt") (some "en") 3).1.entities
      = emptyStore.entities ++
        [{ id := emptyStore.nextId, file_uri := some "gs://bucket/a.txt", timestamp := 3,
           sentiment := classifySentiment (some (-1)) }] :=
  ⟨rfl,
   (post_label_overwrite_spec (constOkClient (sampleResponse (some (-1)))) emptyStore
      (some "gs://bucket/a.txt") (some "en") 3
      { text := some "gs://bucket/a.txt", score := some (-1), magnitude := some 0 }
      rfl).1⟩

/-- C3: A POST whose analysis succeeds with a score comparing greater than
zero (such as 0.8) and whose put succeeds persists one record with label
"positive" and the submitted file_uri, and returns a map with exactly one
entry whose value carries that label and the same file_uri. -/
theorem post_positive_spec (client : LanguageService) (store : Datastore)
    (fu lc : Option String) (now : Nat) (ares : AnalyzeUriResult)
    (hA : analyze_sentiment_using_uri client fu lc = Except.ok ares)
    (hpos : pyGt ares.score (some 0) = true) :
    (Text.post client (Except.ok ()) store fu lc now).1.entities
      = store.entities ++
        [{ id := store.nextId, file_uri := fu, timestamp := now,
           sentiment := "positive" }] ∧
    (Text.post client (Except.ok ()) store fu lc now).2
      = Except.ok [(toString store.nextId,
        { file_uri := fu, timestamp := toString now, sentiment := "positive" })] := by
  have hlabel : classifySentiment ares.score = "positive" := by
    cases hs : ares.score with
    | none => rw [hs] at hpos; exact absurd hpos (by decide)
    | some q =>
      rw [hs] at hpos
      exact classifySentiment_pos (by simpa [pyGt] using hpos)
  rw [post_ok_shape client store fu lc now ares hA, hlabel]
  exact ⟨rfl, rfl⟩

theorem post_positive_spec_witness :
    pyGt (some (mkRat 4 5)) (some 0) = true ∧
    (Text.post (constOkClient (sampleResponse (some (mkRat 4 5)))) (Except.ok ()) emptyStore
        (some "gs://bucket/positive.txt") (some "en") 7).2
      = Except.ok [(toString emptyStore.nextId,
        { file_uri := some "gs://bucket/positive.txt", timestamp := toString 7,
          sentiment := "positive" })] :=
  ⟨by decide,
   (post_positive_spec (constOkClient (sampleResponse (some (mkRat 4 5)))) emptyStore
      (some "gs://bucket/positive.txt") (some "en") 7
      { text := some "gs://bucket/positive.txt", score := some (mkRat 4 5),
        magnitude := some 0 }
      rfl (by decide)).2⟩

/-- C4: When the sentiment adapter call raises, the POST endpoint leaves the
store unchanged and propagates the error; the hosting framework maps the
raised error to a 500 response, and the registered 500 handler returns
status 500. -/
theorem post_adapter_error_spec (client : LanguageService)
    (pr : Except PyError Unit) (store : Datastore)
    (fu lc : Option String) (now : Nat) (e : PyError)
    (hC : client { content := none, gcs_content_uri := fu,
                   type_ := DocumentType.PLAIN_TEXT, language := lc }
            (some EncodingType.UTF8) = Except.error e) :
    Text.post client pr store fu lc now = (store, Except.error e) ∧
    responseStatus (Text.post client pr store fu lc now).2 = 500 ∧
    (server_error e).2 = 500 := by
  have h := post_analyze_error_shape client pr store fu lc now e
    (analyze_uri_error client fu lc e hC)
  refine ⟨h, ?_, rfl⟩
  rw [h]
  rfl

theorem post_adapter_error_spec_witness :
    Text.post (constErrClient (PyError.externalServiceError "quota"))
        (Except.ok ()) sampleStore (some "gs://bucket/a.txt") (some "en") 9
      = (sampleStore, Except.error (PyError.externalServiceError "quota")) ∧
    responseStatus (Text.post (constErrClient (PyError.externalServiceError "quota"))
        (Except.ok ()) sampleStore (some "gs://bucket/a.txt") (some "en") 9).2 = 500 ∧
    (server_error (PyError.externalServiceError "quota")).2 = 500 :=
  post_adapter_error_spec (constErrClient (PyError.externalServiceError "quota"))
    (Except.ok ()) sampleStore (some "gs://bucket/a.txt") (some "en") 9
    (PyError.externalServiceError "quota") rfl

theorem pyDictSet_not_mem {α : Type} (d : List (String × α)) (k : String) (v : α)
    (h : ∀ p ∈ d, p.1 ≠ k) : pyDictSet d k v = d ++ [(k, v)] := by
  have hany : d.any (fun p => p.1 == k) = false := by
    rw [List.any_eq_false]
    intro p hp
    simpa using h p hp
  simp [pyDictSet, hany]

theorem get_foldl_eq (l : List Entity) : ∀ acc : List (String × TextGetEntry),
    (l.map (fun e => toString e.id)).Nodup →
    (∀ p ∈ acc, ∀ e ∈ l, p.1 ≠ toString e.id) →
    l.foldl (fun result text_entity =>
        pyDictSet result (toString text_entity.id) (mkGetEntry text_entity)) acc
      = acc ++ l.map (fun e => (toString e.id, mkGetEntry e)) := by
  induction l with
  | nil =>
    intro acc _ _
    simp
  | cons e tl ih =>
    intro acc hnd hacc
    rw [List.map_cons, List.nodup_cons] at hnd
    rw [List.foldl_cons,
      pyDictSet_not_mem acc (toString e.id) (mkGetEntry e)
        (fun p hp => hacc p hp e (List.mem_cons_self e tl))]
    rw [ih (acc ++ [(toString e.id, mkGetEntry e)]) hnd.2 ?_]
    · simp
    · intro p hp e2 he2
      rcases List.mem_append.mp hp with hp1 | hp2
      · exact hacc p hp1 e2 (List.mem_cons_of_mem e he2)
      · have hps : p = (toString e.id, mkGetEntry e) := by simpa using hp2
        rw [hps]
        intro hcontra
        have hmem : toString e2.id ∈ tl.map (fun e => toString e.id) :=
          List.mem_map_of_mem _ he2
        have hceq : toString e.id = toString e2.id := hcontra
        exact hnd.1 (by rw [hceq]; exact hmem)

/-- C5: GET returns a map with exactly one entry per stored record, keyed by
str(id), whose value holds file_uri, timestamp and sentiment all coerced to
strings; in particular the empty store yields the empty map. The hypothesis
that stored ids render to pairwise distinct strings reflects that entity ids
are store-generated and unique. -/
theorem get_list_spec (store : Datastore)
    (hnd : (store.entities.map (fun e => toString e.id)).Nodup) :
    (Text.get store).2
      = store.entities.map (fun e => (toString e.id, mkGetEntry e)) ∧
    (Text.get emptyStore).2 = [] := by
  constructor
  · have h := get_foldl_eq store.entities [] hnd (by simp)
    simpa [Text.get] using h
  · rfl

theorem get_list_spec_witness :
    (sampleStore.entities.map (fun e => toString e.id)).Nodup ∧
    (Text.get sampleStore).2
      = sampleStore.entities.map (fun e => (toString e.id, mkGetEntry e)) :=
  ⟨by decide, (get_list_spec sampleStore (by decide)).1⟩

/-- C6 counterexample: posting with the language_code field absent is not the
same as performing the analysis with language code "en": with a service whose
answer depends on the language of the request document, the two requests
produce different results, because the handler passes the parsed field value
(None when absent) straight through. -/
theorem post_absent_language_ne_en :
    Text.post langProbeClient (Except.ok ()) emptyStore
        (some "gs://bucket/a.txt") none 0
      ≠ Text.post langProbeClient (Except.ok ()) emptyStore
          (some "gs://bucket/a.txt") (some "en") 0 := by
  decide

/-- C6 amended: the documented default "en" lives in the Python signature of
analyze_sentiment_using_uri and applies only when the language_code argument
is omitted at the call site; the POST handler always passes the parsed field,
so when the form field is absent the external service receives a document
whose language is None: the POST with an absent field behaves exactly like a
POST with field "en" in which the document language is erased to None before
the service sees it. -/
theorem post_absent_language_spec (client : LanguageService)
    (pr : Except PyError Unit) (store : Datastore)
    (fu : Option String) (now : Nat) :
    analyzeUriLanguageCodeDefault = some "en" ∧
    Text.post client pr store fu none now
      = Text.post (fun d enc => client { d with language := none } enc) pr store fu
          analyzeUriLanguageCodeDefault now :=
  ⟨rfl, rfl⟩

/-- C7: Two sequential POSTs with the same file_uri whose analysis and put
both succeed append two records carrying that same file_uri and distinct
store-generated identifiers; no deduplication occurs. -/
theorem post_twice_spec (client1 client2 : LanguageService) (store : Datastore)
    (fu lc1 lc2 : Option String) (now1 now2 : Nat) (a1 a2 : AnalyzeUriResult)
    (h1 : analyze_sentiment_using_uri client1 fu lc1 = Except.ok a1)
    (h2 : analyze_sentiment_using_uri client2 fu lc2 = Except.ok a2) :
    (Text.post client2 (Except.ok ())
        (Text.post client1 (Except.ok ()) store fu lc1 now1).1 fu lc2 now2).1.entities
      = store.entities ++
        [{ id := store.nextId, file_uri := fu, timestamp := now1,
           sentiment := classifySentiment a1.score },
         { id := store.nextId + 1, file_uri := fu, timestamp := now2,
           sentiment := classifySentiment a2.score }] ∧
    store.nextId ≠ store.nextId + 1 := by
  constructor
  · rw [post_ok_shape client1 store fu lc1 now1 a1 h1]
    rw [post_ok_shape client2 _ fu lc2 now2 a2 h2]
    simp
  · omega

theorem post_twice_spec_witness :
    (Text.post (constOkClient (sampleResponse (some 0))) (Except.ok ())
        (Text.post (constOkClient (sampleResponse (some 1))) (Except.ok ()) emptyStore
            (some "gs://bucket/a.txt") (some "en") 1).1
        (some "gs://bucket/a.txt") (some "en") 2).1.entities
      = emptyStore.entities ++
        [{ id := emptyStore.nextId, file_uri := some "gs://bucket/a.txt", timestamp := 1,
           sentiment := classifySentiment (some 1) },
         { id := emptyStore.nextId + 1, file_uri := some "gs://bucket/a.txt", timestamp := 2,
           sentiment := classifySentiment (some 0) }] ∧
    emptyStore.nextId ≠ emptyStore.nextId + 1 :=
  post_twice_spec (constOkClient (sampleResponse (some 1)))
    (constOkClient (sampleResponse (some 0))) emptyStore
    (some "gs://bucket/a.txt") (some "en") (some "en") 1 2
    { text := some "gs://bucket/a.txt", score := some 1, magnitude := some 0 }
    { text := some "gs://bucket/a.txt", score := some 0, magnitude := some 0 }
    rfl rfl

/-- C8: When the external call of analyze_sentiment_using_uri returns a
response, the adapter result carries score and magnitude verbatim from the
document-level sentiment fields of that response, whatever per-sentence data
the response also holds. -/
theorem analyze_uri_verbatim_spec (client : LanguageService)
    (uri lc : Option String) (resp : AnalyzeSentimentResponse)
    (hC : client { content := none, gcs_content_uri := uri,
                   type_ := DocumentType.PLAIN_TEXT, language := lc }
            (some EncodingType.UTF8) = Except.ok resp) :
    analyze_sentiment_using_uri client uri lc
      = Except.ok { text := uri, score := resp.document_sentiment.score,
                    magnitude := resp.document_sentiment.magnitude } :=
  analyze_uri_ok client uri lc resp hC

theorem analyze_uri_verbatim_spec_witness :
    analyze_sentiment_using_uri (constOkClient twoSentenceResponse)
        (some "gs://bucket/a.txt") (some "en")
      = Except.ok { text := some "gs://bucket/a.txt",
                    score := twoSentenceResponse.document_sentiment.score,
                    magnitude := twoSentenceResponse.document_sentiment.magnitude } :=
  analyze_uri_verbatim_spec (constOkClient twoSentenceResponse)
    (some "gs://bucket/a.txt") (some "en") twoSentenceResponse rfl

/-- C9 counterexample: analyze_text_sentiment does not return a single
sentiment result: with a response carrying two sentences it returns a list of
two per-sentence items, not one. -/
theorem analyze_text_sentiment_not_single :
    (analyze_text_sentiment twoSentenceClient "hello").map List.length
      ≠ Except.ok 1 := by
  decide

/-- C9 amended: analyze_text_sentiment returns the list of per-sentence
results, one entry per sentence of the external response, each carrying that
sentence text with its score and magnitude verbatim; the document-level
score and magnitude are only printed as formatted text, never returned. -/
theorem analyze_text_sentiment_spec (client : LanguageService) (text : String)
    (resp : AnalyzeSentimentResponse)
    (hC : client { content := some text, gcs_content_uri := none,
                   type_ := DocumentType.PLAIN_TEXT, language := none } none
      = Except.ok resp) :
    analyze_text_sentiment client text
      = Except.ok (resp.sentences.map (fun s =>
          { text := s.content, sentiment_score := s.sentiment.score,
            sentiment_magnitude := s.sentiment.magnitude })) ∧
    (analyze_text_sentiment client text).map List.length
      = Except.ok resp.sentences.length := by
  constructor
  · simp [analyze_text_sentiment, hC]
  · simp [analyze_text_sentiment, hC, Except.map]

theorem analyze_text_sentiment_spec_witness :
    analyze_text_sentiment twoSentenceClient "hello"
      = Except.ok (twoSentenceResponse.sentences.map (fun s =>
          { text := s.content, sentiment_score := s.sentiment.score,
            sentiment_magnitude := s.sentiment.magnitude })) :=
  (analyze_text_sentiment_spec twoSentenceClient "hello" twoSentenceResponse rfl).1

/-- C10: GET performs no writes: the store it returns is exactly the store it
received. A POST that returns a result appends exactly one new record after
the existing ones, and a POST that raises leaves the store unchanged; no
operation removes or mutates an existing record. -/
theorem frame_spec (client : LanguageService) (pr : Except PyError Unit)
    (store : Datastore) (fu lc : Option String) (now : Nat) :
    (Text.get store).1 = store ∧
    (∀ r, (Text.post client pr store fu lc now).2 = Except.ok r →
      ∃ ent : Entity,
        (Text.post client pr store fu lc now).1.entities = store.entities ++ [ent]) ∧
    (∀ e, (Text.post client pr store fu lc now).2 = Except.error e →
      (Text.post client pr store fu lc now).1 = store) := by
  refine ⟨rfl, ?_, ?_⟩
  · intro r hok
    cases hA : analyze_sentiment_using_uri client fu lc with
    | error e =>
      rw [post_analyze_error_shape client pr store fu lc now e hA] at hok
      exact Except.noConfusion hok
    | ok ares =>
      cases pr with
      | error e =>
        rw [post_put_error_shape client store fu lc now e ares hA] at hok
        exact Except.noConfusion hok
      | ok u =>
        cases u
        refine ⟨{ id := store.nextId, file_uri := fu, timestamp := now,
                  sentiment := classifySentiment ares.score }, ?_⟩
        rw [post_ok_shape client store fu lc now ares hA]
  · intro e2 hfail
    cases hA : analyze_sentiment_using_uri client fu lc with
    | error e =>
      rw [post_analyze_error_shape client pr store fu lc now e hA]
    | ok ares =>
      cases pr with
      | error e =>
        rw [post_put_error_shape client store fu lc now e ares hA]
      | ok u =>
        cases u
        rw [post_ok_shape client store fu lc now ares hA] at hfail
        exact Except.noConfusion hfail

theorem frame_spec_witness :
    (∃ ent : Entity,
      (Text.post (constOkClient (sampleResponse (some 1))) (Except.ok ()) emptyStore
          (some "gs://bucket/a.txt") (some "en") 0).1.entities
        = emptyStore.entities ++ [ent]) ∧
    (Text.post (constErrClient (PyError.externalServiceError "down")) (Except.ok ())
        emptyStore (some "gs://bucket/a.txt") (some "en") 0).1 = emptyStore :=
  ⟨(frame_spec (constOkClient (sampleResponse (some 1))) (Except.ok ()) emptyStore
      (some "gs://bucket/a.txt") (some "en") 0).2.1 _ rfl,
   (frame_spec (constErrClient (PyError.externalServiceError "down")) (Except.ok ())
      emptyStore (some "gs://bucket/a.txt") (some "en") 0).2.2
      (PyError.externalServiceError "down") rfl⟩
